import Mathlib

/-!
Verification of the aiorabbit AMQP client (state machine, framing layer and
client operations) against its natural-language specification.

The Lean definitions below are shallow embeddings of the Python source:

  * `aiorabbit/state.py`    — the table-driven state manager,
  * `aiorabbit/protocol.py` — the transport protocol / frame dispatch loop,
  * `aiorabbit/client.py`   — the client operations and frame handler.

Python `int` state codes become `Nat` (the source values fit without overflow),
exceptions become `Except`/`Option` results, `asyncio.Event` objects become
`Bool` flags, and `asyncio.Future` objects are modelled by identifiers into an
explicit future store.
-/

namespace Aiorabbit

/-! ## State constants (aiorabbit/state.py lines 14-15, client.py lines 37-106) -/

def STATE_UNINITIALIZED : Nat := 0x00
def STATE_EXCEPTION : Nat := 0x01
def STATE_DISCONNECTED : Nat := 0x11
def STATE_CONNECTING : Nat := 0x12
def STATE_CONNECTED : Nat := 0x13
def STATE_OPENED : Nat := 0x14
def STATE_UPDATE_SECRET_SENT : Nat := 0x15
def STATE_UPDATE_SECRETOK_RECEIVED : Nat := 0x16
def STATE_OPENING_CHANNEL : Nat := 0x17
def STATE_CHANNEL_OPEN_SENT : Nat := 0x20
def STATE_CHANNEL_OPENOK_RECEIVED : Nat := 0x21
def STATE_CHANNEL_CLOSE_RECEIVED : Nat := 0x22
def STATE_CHANNEL_CLOSE_SENT : Nat := 0x23
def STATE_CHANNEL_CLOSEOK_RECEIVED : Nat := 0x24
def STATE_CHANNEL_CLOSEOK_SENT : Nat := 0x25
def STATE_CHANNEL_FLOW_RECEIVED : Nat := 0x26
def STATE_CHANNEL_FLOWOK_SENT : Nat := 0x27
def STATE_CONFIRM_SELECT_SENT : Nat := 0x30
def STATE_CONFIRM_SELECTOK_RECEIVED : Nat := 0x31
def STATE_EXCHANGE_BIND_SENT : Nat := 0x40
def STATE_EXCHANGE_BINDOK_RECEIVED : Nat := 0x41
def STATE_EXCHANGE_DECLARE_SENT : Nat := 0x42
def STATE_EXCHANGE_DECLAREOK_RECEIVED : Nat := 0x43
def STATE_EXCHANGE_DELETE_SENT : Nat := 0x44
def STATE_EXCHANGE_DELETEOK_RECEIVED : Nat := 0x45
def STATE_EXCHANGE_UNBIND_SENT : Nat := 0x46
def STATE_EXCHANGE_UNBINDOK_RECEIVED : Nat := 0x47
def STATE_QUEUE_BIND_SENT : Nat := 0x50
def STATE_QUEUE_BINDOK_RECEIVED : Nat := 0x51
def STATE_QUEUE_DECLARE_SENT : Nat := 0x52
def STATE_QUEUE_DECLAREOK_RECEIVED : Nat := 0x53
def STATE_QUEUE_DELETE_SENT : Nat := 0x54
def STATE_QUEUE_DELETEOK_RECEIVED : Nat := 0x55
def STATE_QUEUE_PURGE_SENT : Nat := 0x56
def STATE_QUEUE_PURGEOK_RECEIVED : Nat := 0x57
def STATE_QUEUE_UNBIND_SENT : Nat := 0x58
def STATE_QUEUE_UNBINDOK_RECEIVED : Nat := 0x59
def STATE_TX_SELECT_SENT : Nat := 0x60
def STATE_TX_SELECTOK_RECEIVED : Nat := 0x61
def STATE_TX_COMMIT_SENT : Nat := 0x62
def STATE_TX_COMMITOK_RECEIVED : Nat := 0x63
def STATE_TX_ROLLBACK_SENT : Nat := 0x64
def STATE_TX_ROLLBACKOK_RECEIVED : Nat := 0x65
def STATE_BASIC_ACK_RECEIVED : Nat := 0x70
def STATE_BASIC_ACK_SENT : Nat := 0x71
def STATE_BASIC_CANCEL_RECEIVED : Nat := 0x72
def STATE_BASIC_CANCEL_SENT : Nat := 0x73
def STATE_BASIC_CANCELOK_RECEIVED : Nat := 0x74
def STATE_BASIC_CANCELOK_SENT : Nat := 0x75
def STATE_BASIC_CONSUME_SENT : Nat := 0x76
def STATE_BASIC_CONSUMEOK_RECEIVED : Nat := 0x77
def STATE_BASIC_DELIVER_RECEIVED : Nat := 0x78
def STATE_CONTENT_HEADER_RECEIVED : Nat := 0x79
def STATE_CONTENT_BODY_RECEIVED : Nat := 0x80
def STATE_BASIC_GET_SENT : Nat := 0x81
def STATE_BASIC_GETEMPTY_RECEIVED : Nat := 0x82
def STATE_BASIC_GETOK_RECEIVED : Nat := 0x83
def STATE_BASIC_NACK_RECEIVED : Nat := 0x84
def STATE_BASIC_NACK_SENT : Nat := 0x85
def STATE_BASIC_PUBLISH_SENT : Nat := 0x86
def STATE_CONTENT_HEADER_SENT : Nat := 0x87
def STATE_CONTENT_BODY_SENT : Nat := 0x88
def STATE_BASIC_QOS_SENT : Nat := 0x89
def STATE_BASIC_QOSOK_RECEIVED : Nat := 0x90
def STATE_BASIC_RECOVER_SENT : Nat := 0x91
def STATE_BASIC_RECOVEROK_RECEIVED : Nat := 0x92
def STATE_BASIC_REJECT_RECEIVED : Nat := 0x93
def STATE_BASIC_REJECT_SENT : Nat := 0x94
def STATE_BASIC_RETURN_RECEIVED : Nat := 0x95
def STATE_MESSAGE_ASSEMBLED : Nat := 0x96
def STATE_CLOSING : Nat := 0x100
def STATE_CLOSED : Nat := 0x101

/-- The `_IDLE_STATE` successor list from client.py lines 183-210. -/
def IDLE_STATE : List Nat :=
  [STATE_UPDATE_SECRET_SENT,
   STATE_BASIC_CANCEL_SENT,
   STATE_CHANNEL_CLOSE_RECEIVED,
   STATE_CHANNEL_CLOSE_SENT,
   STATE_CHANNEL_FLOW_RECEIVED,
   STATE_CONFIRM_SELECT_SENT,
   STATE_EXCHANGE_BIND_SENT,
   STATE_EXCHANGE_DECLARE_SENT,
   STATE_EXCHANGE_DELETE_SENT,
   STATE_EXCHANGE_UNBIND_SENT,
   STATE_QUEUE_BIND_SENT,
   STATE_QUEUE_DECLARE_SENT,
   STATE_QUEUE_DELETE_SENT,
   STATE_QUEUE_PURGE_SENT,
   STATE_QUEUE_UNBIND_SENT,
   STATE_TX_SELECT_SENT,
   STATE_TX_COMMIT_SENT,
   STATE_TX_ROLLBACK_SENT,
   STATE_BASIC_CONSUME_SENT,
   STATE_BASIC_DELIVER_RECEIVED,
   STATE_BASIC_GET_SENT,
   STATE_BASIC_PUBLISH_SENT,
   STATE_BASIC_QOS_SENT,
   STATE_BASIC_RECOVER_SENT,
   STATE_CLOSING,
   STATE_CLOSED]

/-- The `_STATE_TRANSITIONS` dict from client.py lines 212-323, as an
association list state -> legal successor states. -/
def CLIENT_STATE_TRANSITIONS : List (Nat × List Nat) :=
  [(STATE_UNINITIALIZED, [STATE_DISCONNECTED]),
   (STATE_EXCEPTION, [STATE_CLOSING, STATE_CLOSED, STATE_DISCONNECTED]),
   (STATE_DISCONNECTED, [STATE_CONNECTING]),
   (STATE_CONNECTING, [STATE_CONNECTED, STATE_CLOSED]),
   (STATE_CONNECTED, [STATE_OPENED, STATE_CLOSED]),
   (STATE_OPENED, [STATE_OPENING_CHANNEL]),
   (STATE_OPENING_CHANNEL, [STATE_CHANNEL_OPEN_SENT]),
   (STATE_UPDATE_SECRET_SENT, [STATE_UPDATE_SECRETOK_RECEIVED]),
   (STATE_UPDATE_SECRETOK_RECEIVED, IDLE_STATE),
   (STATE_CHANNEL_OPEN_SENT, [STATE_CHANNEL_OPENOK_RECEIVED]),
   (STATE_CHANNEL_OPENOK_RECEIVED, IDLE_STATE),
   (STATE_CHANNEL_CLOSE_RECEIVED, [STATE_CHANNEL_CLOSEOK_SENT]),
   (STATE_CHANNEL_CLOSE_SENT, [STATE_CHANNEL_CLOSEOK_RECEIVED]),
   (STATE_CHANNEL_CLOSEOK_RECEIVED, [STATE_OPENING_CHANNEL, STATE_CLOSING]),
   (STATE_CHANNEL_CLOSEOK_SENT, [STATE_OPENING_CHANNEL]),
   (STATE_CHANNEL_FLOW_RECEIVED, [STATE_CHANNEL_FLOWOK_SENT]),
   (STATE_CHANNEL_FLOWOK_SENT, IDLE_STATE),
   (STATE_CONFIRM_SELECT_SENT, [STATE_CONFIRM_SELECTOK_RECEIVED]),
   (STATE_CONFIRM_SELECTOK_RECEIVED, IDLE_STATE),
   (STATE_EXCHANGE_BIND_SENT,
      [STATE_CHANNEL_CLOSE_RECEIVED, STATE_EXCHANGE_BINDOK_RECEIVED]),
   (STATE_EXCHANGE_BINDOK_RECEIVED, IDLE_STATE),
   (STATE_EXCHANGE_DECLARE_SENT,
      [STATE_CHANNEL_CLOSE_RECEIVED, STATE_EXCHANGE_DECLAREOK_RECEIVED]),
   (STATE_EXCHANGE_DECLAREOK_RECEIVED, IDLE_STATE),
   (STATE_EXCHANGE_DELETE_SENT,
      [STATE_CHANNEL_CLOSE_RECEIVED, STATE_EXCHANGE_DELETEOK_RECEIVED]),
   (STATE_EXCHANGE_DELETEOK_RECEIVED, IDLE_STATE),
   (STATE_EXCHANGE_UNBIND_SENT,
      [STATE_CHANNEL_CLOSE_RECEIVED, STATE_EXCHANGE_UNBINDOK_RECEIVED]),
   (STATE_EXCHANGE_UNBINDOK_RECEIVED, IDLE_STATE),
   (STATE_QUEUE_BIND_SENT,
      [STATE_CHANNEL_CLOSE_RECEIVED, STATE_QUEUE_BINDOK_RECEIVED]),
   (STATE_QUEUE_BINDOK_RECEIVED, IDLE_STATE),
   (STATE_QUEUE_DECLARE_SENT,
      [STATE_CHANNEL_CLOSE_RECEIVED, STATE_QUEUE_DECLAREOK_RECEIVED]),
   (STATE_QUEUE_DECLAREOK_RECEIVED, IDLE_STATE),
   (STATE_QUEUE_DELETE_SENT,
      [STATE_CHANNEL_CLOSE_RECEIVED, STATE_QUEUE_DELETEOK_RECEIVED]),
   (STATE_QUEUE_DELETEOK_RECEIVED, IDLE_STATE),
   (STATE_QUEUE_PURGE_SENT,
      [STATE_CHANNEL_CLOSE_RECEIVED, STATE_QUEUE_PURGEOK_RECEIVED]),
   (STATE_QUEUE_PURGEOK_RECEIVED, IDLE_STATE),
   (STATE_QUEUE_UNBIND_SENT,
      [STATE_CHANNEL_CLOSE_RECEIVED, STATE_QUEUE_UNBINDOK_RECEIVED]),
   (STATE_QUEUE_UNBINDOK_RECEIVED, IDLE_STATE),
   (STATE_TX_SELECT_SENT, [STATE_TX_SELECTOK_RECEIVED]),
   (STATE_TX_SELECTOK_RECEIVED,
      IDLE_STATE ++ [STATE_TX_COMMIT_SENT, STATE_TX_ROLLBACK_SENT]),
   (STATE_TX_COMMIT_SENT, [STATE_TX_COMMITOK_RECEIVED]),
   (STATE_TX_COMMITOK_RECEIVED, IDLE_STATE),
   (STATE_TX_ROLLBACK_SENT, [STATE_TX_ROLLBACKOK_RECEIVED]),
   (STATE_TX_ROLLBACKOK_RECEIVED, IDLE_STATE),
   (STATE_BASIC_ACK_RECEIVED, IDLE_STATE),
   (STATE_BASIC_ACK_SENT, IDLE_STATE),
   (STATE_BASIC_CANCEL_RECEIVED, IDLE_STATE),
   (STATE_BASIC_CANCEL_SENT, [STATE_BASIC_CANCELOK_RECEIVED]),
   (STATE_BASIC_CANCELOK_RECEIVED, IDLE_STATE),
   (STATE_BASIC_CANCELOK_SENT, IDLE_STATE),
   (STATE_BASIC_CONSUME_SENT,
      [STATE_CHANNEL_CLOSE_RECEIVED, STATE_BASIC_CONSUMEOK_RECEIVED]),
   (STATE_BASIC_CONSUMEOK_RECEIVED, IDLE_STATE),
   (STATE_BASIC_DELIVER_RECEIVED, [STATE_CONTENT_HEADER_RECEIVED]),
   (STATE_CONTENT_HEADER_RECEIVED, [STATE_CONTENT_BODY_RECEIVED]),
   (STATE_CONTENT_BODY_RECEIVED, [STATE_MESSAGE_ASSEMBLED]),
   (STATE_BASIC_GET_SENT,
      [STATE_CHANNEL_CLOSE_RECEIVED, STATE_BASIC_GETEMPTY_RECEIVED,
       STATE_BASIC_GETOK_RECEIVED]),
   (STATE_BASIC_GETEMPTY_RECEIVED, IDLE_STATE),
   (STATE_BASIC_GETOK_RECEIVED, [STATE_CONTENT_HEADER_RECEIVED]),
   (STATE_BASIC_NACK_RECEIVED, IDLE_STATE),
   (STATE_BASIC_NACK_SENT, IDLE_STATE),
   (STATE_BASIC_PUBLISH_SENT, [STATE_CONTENT_HEADER_SENT]),
   (STATE_CONTENT_HEADER_SENT, [STATE_CONTENT_BODY_SENT]),
   (STATE_CONTENT_BODY_SENT,
      IDLE_STATE ++
      [STATE_BASIC_ACK_RECEIVED, STATE_BASIC_NACK_RECEIVED,
       STATE_BASIC_REJECT_RECEIVED, STATE_BASIC_RETURN_RECEIVED]),
   (STATE_BASIC_QOS_SENT,
      [STATE_CHANNEL_CLOSE_RECEIVED, STATE_BASIC_QOSOK_RECEIVED]),
   (STATE_BASIC_QOSOK_RECEIVED, IDLE_STATE),
   (STATE_BASIC_RECOVER_SENT, [STATE_BASIC_RECOVEROK_RECEIVED]),
   (STATE_BASIC_RECOVEROK_RECEIVED, IDLE_STATE),
   (STATE_BASIC_REJECT_RECEIVED, IDLE_STATE),
   (STATE_BASIC_REJECT_SENT, IDLE_STATE),
   (STATE_BASIC_RETURN_RECEIVED, [STATE_CONTENT_HEADER_RECEIVED]),
   (STATE_MESSAGE_ASSEMBLED,
      IDLE_STATE ++
      [STATE_BASIC_ACK_RECEIVED, STATE_BASIC_ACK_SENT,
       STATE_BASIC_NACK_SENT, STATE_BASIC_NACK_RECEIVED,
       STATE_BASIC_REJECT_SENT, STATE_BASIC_REJECT_RECEIVED]),
   (STATE_CLOSING, [STATE_CLOSED]),
   (STATE_CLOSED, [STATE_CONNECTING])]

/-- Lookup in the transition table (`self.STATE_TRANSITIONS[self._state]` in
state.py line 86); states outside the table have no legal successors. -/
def clientTransitions (s : Nat) : List Nat :=
  (CLIENT_STATE_TRANSITIONS.lookup s).getD []

/-! ## State manager (aiorabbit/state.py)

`StateManager` mirrors the `__init__` fields of `state.StateManager`
(state.py lines 29-38).  The per-state dict of `asyncio.Event` objects
`self._waits` is modelled as a list of (state, wait id, event-is-set)
triples; `self._exception` stores an error code. -/

structure StateManager where
  state : Nat
  exception : Option Nat
  waits : List (Nat × Nat × Bool)
  stickyState : List Nat
deriving DecidableEq

/-- Waking the waiters registered on the current state: the trailing block of
`_set_state` (state.py lines 99-101) schedules `event.set` for every event in
`self._waits[self._state]`. -/
def wakeWaits (m : StateManager) : StateManager :=
  { m with waits :=
      m.waits.map (fun w => if w.1 = m.state then (w.1, w.2.1, true) else w) }

/-- `StateManager._set_state` (state.py lines 76-101).  The transition table
is the class attribute `STATE_TRANSITIONS`, passed here as `tbl`.  A raised
`StateTransitionError` becomes an `Except.error`; on that path the wake block
is never reached, exactly as in the source where the `raise` aborts the call. -/
def set_state (tbl : Nat → List Nat) (m : StateManager) (value : Nat)
    (exc : Option Nat) (sticky : Bool) : Except String StateManager :=
  if value = STATE_EXCEPTION ∨ exc.isSome then
    .ok (wakeWaits { m with exception := exc, state := STATE_EXCEPTION })
  else if value = m.state then
    .ok (wakeWaits m)
  else if value ∉ tbl m.state then
    .error "Invalid state transition"
  else
    .ok (wakeWaits
      { m with state := value,
               stickyState :=
                 if sticky then value :: m.stickyState else m.stickyState })

/-- Registration prefix of `StateManager._wait_on_state` (state.py lines
105-110): one fresh unset event is stored under `wait_id` for every awaited
state. -/
def wait_on_state_register (m : StateManager) (waitId : Nat)
    (args : List Nat) : StateManager :=
  { m with waits := m.waits ++ args.map (fun s => (s, waitId, false)) }

/-- `StateManager._clear_waits` (state.py lines 65-68). -/
def clear_waits (m : StateManager) (waitId : Nat) : StateManager :=
  { m with waits := m.waits.filter (fun w => w.2.1 ≠ waitId) }

/-- Whether the event registered for `waitId` on `s` is set. -/
def eventIsSet (m : StateManager) (waitId : Nat) (s : Nat) : Bool :=
  m.waits.any (fun w => w.1 = s ∧ w.2.1 = waitId ∧ w.2.2)

/-- Outcome of one iteration of the polling loop in `_wait_on_state`. -/
inductive WaitStep where
  | raised (e : Nat)
  | finished (s : Nat)
  | sleeping
deriving DecidableEq

/-- One iteration of the polling loop of `StateManager._wait_on_state`
(state.py lines 115-126).  The loop guard `while not self._exception` is
checked first: when an exception is stored, the waiter exits the loop, takes
the exception (`self._exception = None`) and raises it.  Otherwise the
waiter's events are scanned in registration order and the first set one
finishes the wait (clearing all registrations for this `wait_id`); if none is
set the waiter sleeps and polls again. -/
def wait_on_state_step (m : StateManager) (waitId : Nat)
    (args : List Nat) : WaitStep × StateManager :=
  match m.exception with
  | some e => (.raised e, { m with exception := none })
  | none =>
    match args.find? (fun s => eventIsSet m waitId s) with
    | some s => (.finished s, clear_waits m waitId)
    | none => (.sleeping, m)

/-! ## Transport protocol (aiorabbit/protocol.py)

The external codec `pamqp.frame.unmarshal` is a collaborator; it is passed in
as a function returning `some (count, channel, frame)` for a complete frame
and `none` when it raises `UnmarshalingException` on insufficient bytes. -/

/-- `AMQP.data_received` (protocol.py lines 35-47).  The incoming bytes are
appended to `self.buffer` and `while self.buffer:` is entered; on an
unmarshaling exception the loop `break`s, otherwise the buffer is truncated by
`count` bytes, the frame is dispatched — and the `else` arm then `break`s as
well (line 47), so every path leaves the loop after the first attempt.  The
result is the new buffer together with the dispatched (channel, frame) pairs. -/
def data_received {α : Type} (unmarshal : List Nat → Option (Nat × Nat × α))
    (buffer : List Nat) (data : List Nat) : List Nat × List (Nat × α) :=
  let buffer := buffer ++ data
  if buffer.isEmpty then (buffer, [])
  else
    match unmarshal buffer with
    | none => (buffer, [])
    | some (count, channel, value) => (buffer.drop count, [(channel, value)])

/-- A minimal concrete codec used to exercise `data_received`: every single
byte is one complete frame on channel 0. -/
def unmarshalByte (b : List Nat) : Option (Nat × Nat × Nat) :=
  match b with
  | [] => none
  | x :: _ => some (1, 0, x)

/-! ## Publisher-confirm wait loop of `Client.publish` (client.py 950-967) -/

/-- Result of the publisher-confirm section of `Client.publish`: the value
returned to the caller (`none` when the loop body is not entered because
publisher confirms are off), the updated ack and nack tag sets, and whether
the re-open wait `_wait_on_state(STATE_CHANNEL_OPENOK_RECEIVED)` was awaited. -/
structure ConfirmLoopResult where
  returnValue : Option Bool
  acks : List Nat
  nacks : List Nat
  awaitedReopen : Bool
deriving DecidableEq

/-- The `while self._publisher_confirms:` loop of `Client.publish` (client.py
lines 950-967).  `result` is the state returned by
`_wait_on_state(STATE_BASIC_ACK_RECEIVED, STATE_BASIC_NACK_RECEIVED,
STATE_CHANNEL_CLOSE_RECEIVED)`.  Every path through the loop body executes a
`return`, so the loop body runs at most once and this function is its exact
translation: own tag in the ack set returns `True` removing it; own tag in
the nack set returns `False` removing it; on any other wait result — the
source comment asserts it can only be a channel close, but an ack or nack for
a different delivery tag also lands here — the re-open is awaited and `False`
is returned. -/
def publish_confirm_loop (publisher_confirms : Bool) (result : Nat)
    (delivery_tag : Nat) (acks nacks : List Nat) : ConfirmLoopResult :=
  if publisher_confirms then
    if result = STATE_BASIC_ACK_RECEIVED ∧ delivery_tag ∈ acks then
      ⟨some true, acks.erase delivery_tag, nacks, false⟩
    else if result = STATE_BASIC_NACK_RECEIVED ∧ delivery_tag ∈ nacks then
      ⟨some false, acks, nacks.erase delivery_tag, false⟩
    else
      ⟨some false, acks, nacks, true⟩
  else ⟨none, acks, nacks, false⟩

/-! ## Category A management operations (client.py)

For each operation the list of states passed to its `_wait_on_state` call and
the code that runs after the wait are read off the source.  `MgmtOutcome`
describes that post-wait code: `.raiseReply rc` stands for "read the saved
last frame's reply code `rc`, await `STATE_CHANNEL_OPENOK_RECEIVED`, raise
`exceptions.CLASS_MAPPING[rc](rc)`". -/

inductive MgmtOutcome where
  | ok
  | raiseReply (reply_code : Nat)
deriving DecidableEq

/-- States awaited by `Client.exchange_declare` (client.py 755-757). -/
def exchange_declare_awaited : List Nat :=
  [STATE_CHANNEL_CLOSE_RECEIVED, STATE_EXCHANGE_DECLAREOK_RECEIVED]

/-- Post-wait handling of `Client.exchange_declare` (client.py 760-764). -/
def exchange_declare_on_wait (result : Nat) (reply_code : Nat) : MgmtOutcome :=
  if result = STATE_CHANNEL_CLOSE_RECEIVED then .raiseReply reply_code else .ok

/-- States awaited by `Client.exchange_delete` (client.py 783): only the Ok
state; there is no channel-close arm. -/
def exchange_delete_awaited : List Nat :=
  [STATE_EXCHANGE_DELETEOK_RECEIVED]

/-- Post-wait handling of `Client.exchange_delete`: nothing follows the wait
(client.py 783 is the last line of the method). -/
def exchange_delete_on_wait (_result : Nat) (_reply_code : Nat) : MgmtOutcome :=
  .ok

/-- States awaited by `Client.exchange_bind` (client.py 700-702). -/
def exchange_bind_awaited : List Nat :=
  [STATE_CHANNEL_CLOSE_RECEIVED, STATE_EXCHANGE_BINDOK_RECEIVED]

/-- Post-wait handling of `Client.exchange_bind` (client.py 703-707). -/
def exchange_bind_on_wait (result : Nat) (reply_code : Nat) : MgmtOutcome :=
  if result = STATE_CHANNEL_CLOSE_RECEIVED then .raiseReply reply_code else .ok

/-- States awaited by `Client.exchange_unbind` (client.py 813): only the Ok
state. -/
def exchange_unbind_awaited : List Nat :=
  [STATE_EXCHANGE_UNBINDOK_RECEIVED]

/-- Post-wait handling of `Client.exchange_unbind`: nothing follows the wait. -/
def exchange_unbind_on_wait (_result : Nat) (_reply_code : Nat) : MgmtOutcome :=
  .ok

/-- States awaited by `Client.queue_declare` (client.py 1068-1069). -/
def queue_declare_awaited : List Nat :=
  [STATE_QUEUE_DECLAREOK_RECEIVED, STATE_CHANNEL_CLOSE_RECEIVED]

/-- Post-wait handling of `Client.queue_declare` (client.py 1070-1074). -/
def queue_declare_on_wait (result : Nat) (reply_code : Nat) : MgmtOutcome :=
  if result = STATE_CHANNEL_CLOSE_RECEIVED then .raiseReply reply_code else .ok

/-- States awaited by `Client.queue_delete` (client.py 1101): only the Ok
state. -/
def queue_delete_awaited : List Nat :=
  [STATE_QUEUE_DELETEOK_RECEIVED]

/-- Post-wait handling of `Client.queue_delete`: nothing follows the wait. -/
def queue_delete_on_wait (_result : Nat) (_reply_code : Nat) : MgmtOutcome :=
  .ok

/-- States awaited by `Client.queue_bind` (client.py 1011-1012). -/
def queue_bind_awaited : List Nat :=
  [STATE_QUEUE_BINDOK_RECEIVED, STATE_CHANNEL_CLOSE_RECEIVED]

/-- Post-wait handling of `Client.queue_bind` (client.py 1013-1017). -/
def queue_bind_on_wait (result : Nat) (reply_code : Nat) : MgmtOutcome :=
  if result = STATE_CHANNEL_CLOSE_RECEIVED then .raiseReply reply_code else .ok

/-- States awaited by `Client.queue_unbind` (client.py 1158): only the Ok
state. -/
def queue_unbind_awaited : List Nat :=
  [STATE_QUEUE_UNBINDOK_RECEIVED]

/-- Post-wait handling of `Client.queue_unbind`: nothing follows the wait. -/
def queue_unbind_on_wait (_result : Nat) (_reply_code : Nat) : MgmtOutcome :=
  .ok

/-- States awaited by `Client.queue_purge` (client.py 1117-1118). -/
def queue_purge_awaited : List Nat :=
  [STATE_QUEUE_PURGEOK_RECEIVED, STATE_CHANNEL_CLOSE_RECEIVED]

/-- Post-wait handling of `Client.queue_purge` (client.py 1119-1123). -/
def queue_purge_on_wait (result : Nat) (reply_code : Nat) : MgmtOutcome :=
  if result = STATE_CHANNEL_CLOSE_RECEIVED then .raiseReply reply_code else .ok

/-! ## Body chunking in `Client.publish` (client.py 940-948)

`self._max_frame_size` is a Python float but always holds the integer frame
size negotiated by Channel0 (client.py 1291, 1309), and all the arithmetic on
it (`math.ceil(body_size / f)`, `int(f * offset)`, `int(start + f)`) is exact
on those integer values, so it is embedded as `Nat`. -/

/-- The body of the `for offset in range(0, frames)` loop of `Client.publish`
(client.py 943-947): the byte slice `message_body[start:end]` written as the
`offset`-th `ContentBody` frame. -/
def publish_body_chunk (max_frame_size : Nat) (message_body : List Nat)
    (offset : Nat) : List Nat :=
  let body_size := message_body.length
  let start := max_frame_size * offset
  let e := start + max_frame_size
  let e := if e > body_size then body_size else e
  (message_body.drop start).take (e - start)

/-- The `ContentBody` frames written by `Client.publish` (client.py 940-948):
`frames = math.ceil(body_size / max_frame_size)` slices of the body, in
offset order. -/
def publish_body_frames (max_frame_size : Nat) (message_body : List Nat) :
    List (List Nat) :=
  let body_size := message_body.length
  let frames := (body_size + max_frame_size - 1) / max_frame_size
  (List.range frames).map (publish_body_chunk max_frame_size message_body)

/-! ## Client state (aiorabbit/client.py)

`Client` extends `StateManager` exactly as in the source
(`class Client(state.StateManager)`), with the `__init__` fields of client.py
lines 352-380.  `asyncio.Event` attributes become `Bool` flags; the transport,
protocol and channel0 objects are modelled by presence flags; `asyncio.Future`
objects are modelled by identifiers into the explicit `futures` store
(`next_future` supplies fresh identifiers); callbacks are identifiers.
`dispatched` records the `_execute_callback` invocations.  `_last_frame` is
kept only for error reporting in the source and is passed explicitly as a
reply code where an embedded operation reads it; `_url`, `_defaults`,
`_on_channel_close` and the logger are configuration and diagnostics and are
not modelled. -/

/-- Whether a frame was started by Deliver, GetOk or Return; the method
frames of the message-assembly path plus the content frames. -/
inductive ClientFrame where
  | basicDeliver (consumer_tag : String) (delivery_tag : Nat)
  | basicGetEmpty
  | basicGetOk (delivery_tag : Nat)
  | basicReturn (reply_code : Nat)
  | contentHeader (body_size : Nat)
  | contentBody (data : List Nat)
deriving DecidableEq

/-- Modelled from the spec: `aiorabbit/message.py` is not under src/, so the
`message.Message` class is taken from spec section 3 — "Message: method,
properties, bodyBytes, expectedBodySize.  Created when a Deliver/GetOk/Return
method arrives; mutated only by appending body chunks; complete when the sum
of the body chunks equals expectedBodySize."  `header` holds the body size
announced by the ContentHeader once it arrives (properties are not needed by
any claim). -/
structure Msg where
  method : ClientFrame
  header : Option Nat
  body_frames : List (List Nat)
deriving DecidableEq

/-- Modelled from the spec: completeness of a `Message` — the sum of the
body-chunk lengths equals the body size announced by the ContentHeader (spec
sections 3 and 4.6); a message with no header yet is not complete. -/
def Msg.complete (m : Msg) : Bool :=
  match m.header with
  | none => false
  | some bs => (m.body_frames.map List.length).sum == bs

/-- Modelled from the spec: the consumer tag of a delivered message, read
from its starting `Basic.Deliver` method frame. -/
def Msg.consumer_tag (m : Msg) : Option String :=
  match m.method with
  | .basicDeliver ct _ => some ct
  | _ => none

/-- An entry of the `self._consumers` dict: consumer-tag keys map to
callbacks, the reserved key "GetOk" maps to the future of the outstanding
`basic_get`. -/
inductive ConsumerTarget where
  | cb (id : Nat)
  | fut (id : Nat)
deriving DecidableEq

/-- State of a modelled `asyncio.Future`: pending, or resolved with an
optional message (`basic_get` resolves with `None` on GetEmpty). -/
inductive FutState where
  | pending
  | result (v : Option Msg)
deriving DecidableEq

/-- A recorded `_execute_callback(method, message)` invocation. -/
inductive Dispatch where
  | callbackInvoked (cb : Nat) (msg : Msg)
deriving DecidableEq

structure Client extends StateManager where
  acks : List Nat
  blocked : Bool
  channel : Nat
  channel_open : Bool
  channel0 : Bool
  connected : Bool
  consumers : List (String × ConsumerTarget)
  delivery_tag : Nat
  message : Option Msg
  nacks : List Nat
  on_message_return : Option Nat
  rejects : List Nat
  transport : Bool
  pending_consumers : List (Nat × Nat)
  protocol : Bool
  publisher_confirms : Bool
  transactional : Bool
  max_frame_size : Nat
  futures : List (Nat × FutState)
  next_future : Nat
  dispatched : List Dispatch
deriving DecidableEq

/-- `Client.__init__` (client.py 352-380): empty tag sets, cleared events, no
channel, no consumers, delivery tag 0, no transport or protocol, confirms and
transactional mode off; `_set_state(STATE_DISCONNECTED)` leaves the manager
in Disconnected. -/
def Client.init : Client :=
  { state := STATE_DISCONNECTED, exception := none, waits := [],
    stickyState := [],
    acks := [], blocked := false, channel := 0, channel_open := false,
    channel0 := false, connected := false, consumers := [],
    delivery_tag := 0, message := none, nacks := [],
    on_message_return := none, rejects := [], transport := false,
    pending_consumers := [], protocol := false, publisher_confirms := false,
    transactional := false, max_frame_size := 131072, futures := [],
    next_future := 0, dispatched := [] }

/-- `self._set_state(value)` on the client: `set_state` with the Client's
`STATE_TRANSITIONS` table. -/
def Client.set_state (c : Client) (value : Nat) : Except String Client :=
  (Aiorabbit.set_state clientTransitions c.toStateManager value none false).map
    (fun m => { c with toStateManager := m })

/-- Dict lookup `self._consumers[key]`. -/
def Client.consumersGet (c : Client) (key : String) : Option ConsumerTarget :=
  (c.consumers.find? (fun p => p.1 = key)).map (fun p => p.2)

/-- Dict assignment `self._consumers[key] = v`. -/
def Client.consumersSet (c : Client) (key : String) (v : ConsumerTarget) :
    Client :=
  if c.consumers.any (fun p => p.1 = key) then
    { c with consumers :=
        c.consumers.map (fun p => if p.1 = key then (key, v) else p) }
  else
    { c with consumers := c.consumers ++ [(key, v)] }

/-- Lookup in the modelled future store. -/
def Client.futureState (c : Client) (fid : Nat) : Option FutState :=
  (c.futures.find? (fun p => p.1 = fid)).map (fun p => p.2)

/-- `future.set_result(v)`: errors when the future does not exist or is
already resolved (`asyncio.InvalidStateError`). -/
def Client.futureSetResult (c : Client) (fid : Nat) (v : Option Msg) :
    Except String Client :=
  match c.futureState fid with
  | some .pending =>
      .ok { c with futures :=
        c.futures.map (fun p => if p.1 = fid then (fid, .result v) else p) }
  | some (.result _) => .error "InvalidStateError"
  | none => .error "unknown future"

/-- `Client._pop_message` (client.py 1467-1472). -/
def Client.pop_message (c : Client) : Except String (Client × Msg) :=
  match c.message with
  | none => .error "Missing message"
  | some m => .ok ({ c with message := none }, m)

/-- The message-assembly slice of `Client._on_frame` (client.py 1333-1413):
the `Basic.Deliver`, `Basic.GetEmpty`, `Basic.GetOk`, `Basic.Return`,
`ContentHeader` and `ContentBody` branches of the isinstance ladder,
translated arm by arm.  Deliver/GetOk/Return set their state and create a
fresh `Message`; GetEmpty resolves the "GetOk" future with `None`; the
ContentHeader arm sets `STATE_CONTENT_HEADER_RECEIVED` and assigns
`self._message.header = value` — nothing else; the ContentBody arm appends
the chunk and, only when `self._message.complete`, sets
`STATE_MESSAGE_ASSEMBLED` and dispatches to the consumer callback, the
"GetOk" future, or the message-return callback.  A `raise` inside the handler
(state-transition error, missing dict key, `None` attribute access) surfaces
as `Except.error`. -/
def Client.on_frame (c : Client) (value : ClientFrame) :
    Except String Client := do
  match value with
  | .basicDeliver _ _ => do
      let c ← c.set_state STATE_BASIC_DELIVER_RECEIVED
      pure { c with message := some ⟨value, none, []⟩ }
  | .basicGetEmpty => do
      let c ← c.set_state STATE_BASIC_GETEMPTY_RECEIVED
      match c.consumersGet "GetOk" with
      | some (.fut fid) => c.futureSetResult fid none
      | _ => .error "KeyError GetOk"
  | .basicGetOk _ => do
      let c ← c.set_state STATE_BASIC_GETOK_RECEIVED
      pure { c with message := some ⟨value, none, []⟩ }
  | .basicReturn _ => do
      let c ← c.set_state STATE_BASIC_RETURN_RECEIVED
      pure { c with message := some ⟨value, none, []⟩ }
  | .contentHeader bs => do
      let c ← c.set_state STATE_CONTENT_HEADER_RECEIVED
      match c.message with
      | some m => pure { c with message := some { m with header := some bs } }
      | none => .error "NoneType has no attribute header"
  | .contentBody data => do
      let c ← c.set_state STATE_CONTENT_BODY_RECEIVED
      match c.message with
      | none => .error "NoneType has no attribute body_frames"
      | some m =>
        let m := { m with body_frames := m.body_frames ++ [data] }
        let c := { c with message := some m }
        if m.complete then do
          let c ← c.set_state STATE_MESSAGE_ASSEMBLED
          match m.method with
          | .basicDeliver ctag _ =>
              match c.consumersGet ctag with
              | some (.cb cbid) => do
                  let (c, msg) ← c.pop_message
                  pure { c with dispatched :=
                    c.dispatched ++ [.callbackInvoked cbid msg] }
              | _ => .error "KeyError consumer tag"
          | .basicGetOk _ =>
              match c.consumersGet "GetOk" with
              | some (.fut fid) => do
                  let (c, msg) ← c.pop_message
                  c.futureSetResult fid (some msg)
              | _ => .error "KeyError GetOk"
          | .basicReturn _ =>
              match c.on_message_return with
              | some cbid => do
                  let (c, msg) ← c.pop_message
                  pure { c with dispatched :=
                    c.dispatched ++ [.callbackInvoked cbid msg] }
              | none => pure c
          | _ =>
              (Aiorabbit.set_state clientTransitions c.toStateManager
                STATE_EXCEPTION (some 0) false).map
                (fun mg => { c with toStateManager := mg })
        else pure c

/-- `Client.basic_get` (client.py 522-543) after argument validation: a fresh
future `response = asyncio.Future()` is created, stored under the reserved
key "GetOk" (`self._consumers['GetOk'] = response`), `Basic.Get` is written
and `STATE_BASIC_GET_SENT` is set; the returned identifier is the future the
caller then awaits. -/
def Client.basic_get (c : Client) : Except String (Client × Nat) := do
  let fid := c.next_future
  let c := { c with next_future := fid + 1,
                    futures := c.futures ++ [(fid, FutState.pending)] }
  let c := c.consumersSet "GetOk" (.fut fid)
  let c ← c.set_state STATE_BASIC_GET_SENT
  pure (c, fid)

/-- The delivery-tag step of `Client.publish` (client.py 911-912):
`self._delivery_tag += 1; delivery_tag = self._delivery_tag` — the
incremented counter value is captured as the caller's own tag. -/
def Client.publish_delivery_tag (c : Client) : Client × Nat :=
  let c := { c with delivery_tag := c.delivery_tag + 1 }
  (c, c.delivery_tag)

/-- `Client._reset` (client.py 1487-1499), assignment by assignment: clears
the blocked, channel-open and connected events, zeroes the channel number,
drops channel0, the protocol and the transport, clears the stored exception,
turns publisher confirms off and forces the state to Closed.  (The state-entry
timestamp is wall-clock bookkeeping and is not modelled.)  No other attribute
is touched. -/
def Client.reset (c : Client) : Client :=
  { c with blocked := false,
           channel := 0,
           channel_open := false,
           channel0 := false,
           connected := false,
           exception := none,
           protocol := false,
           publisher_confirms := false,
           transport := false,
           state := STATE_CLOSED }

/-- Outcome of `tx_commit` / `tx_rollback` up to their Ok wait. -/
inductive TxResult where
  | noTransaction
  | ok (c : Client)
  | stateError (msg : String)
deriving DecidableEq

/-- `Client.tx_commit` (client.py 1184-1196): raises `NoTransactionError`
when `self._transactional` is unset; otherwise writes `Tx.Commit`, sets
`STATE_TX_COMMIT_SENT` and awaits the CommitOk. -/
def Client.tx_commit (c : Client) : TxResult :=
  if !c.transactional then .noTransaction
  else
    match c.set_state STATE_TX_COMMIT_SENT with
    | .error m => .stateError m
    | .ok c => .ok c

/-- `Client.tx_rollback` (client.py 1198-1212): raises `NoTransactionError`
when `self._transactional` is unset; otherwise writes `Tx.Rollback`, sets
`STATE_TX_ROLLBACK_SENT` and awaits the RollbackOk. -/
def Client.tx_rollback (c : Client) : TxResult :=
  if !c.transactional then .noTransaction
  else
    match c.set_state STATE_TX_ROLLBACK_SENT with
    | .error m => .stateError m
    | .ok c => .ok c

/-! ## Theorems -/

/-- Claim C1: with publisher confirms enabled, `publish` returns `True`
exactly when its own delivery tag is in the ack set (removing it) and `False`
when it is in the nack set (removing it); but when the awaited confirm state
fires for a delivery tag other than the caller's own, the code does NOT
continue the await loop as the claim states: the loop body's final arm —
guarded only by the comment "State can only be STATE_CHANNEL_CLOSE_RECEIVED"
— awaits the channel re-open and returns `False`.  Evaluated here at the
failing input: an ack arrives for tag 2 while the caller's tag is 1. -/
theorem publish_confirm_foreign_ack_returns_false :
    publish_confirm_loop true STATE_BASIC_ACK_RECEIVED 1 [2] [] =
      ⟨some false, [2], [], true⟩
  ∧ publish_confirm_loop true STATE_BASIC_ACK_RECEIVED 2 [2] [] =
      ⟨some true, [], [], false⟩
  ∧ publish_confirm_loop true STATE_BASIC_NACK_RECEIVED 2 [] [2] =
      ⟨some false, [], [], false⟩
  ∧ publish_confirm_loop true STATE_CHANNEL_CLOSE_RECEIVED 1 [] [] =
      ⟨some false, [], [], true⟩ := by decide

/-- Claim C2 counterexample: `exchange_delete` is a Category A management
operation, yet it awaits only its Ok state — `STATE_CHANNEL_CLOSE_RECEIVED`
is not among the awaited states — and nothing after its wait raises the error
class bound to a reply code. -/
theorem exchange_delete_ignores_channel_close :
    STATE_CHANNEL_CLOSE_RECEIVED ∉ exchange_delete_awaited
  ∧ exchange_delete_on_wait STATE_CHANNEL_CLOSE_RECEIVED 406 = .ok := by
  decide

/-- Claim C2 (amended): of the nine Category A management operations, the
five with a channel-close arm (`exchange_declare`, `exchange_bind`,
`queue_declare`, `queue_bind`, `queue_purge`) await both their Ok state and
`STATE_CHANNEL_CLOSE_RECEIVED`, and on the close result raise the error class
bound to the saved reply code while returning normally on the Ok result; the
remaining four (`exchange_delete`, `exchange_unbind`, `queue_delete`,
`queue_unbind`) await only their Ok state and never raise after the wait. -/
theorem category_a_close_handling :
    (STATE_CHANNEL_CLOSE_RECEIVED ∈ exchange_declare_awaited
      ∧ STATE_EXCHANGE_DECLAREOK_RECEIVED ∈ exchange_declare_awaited
      ∧ ∀ rc, exchange_declare_on_wait STATE_CHANNEL_CLOSE_RECEIVED rc =
                .raiseReply rc
            ∧ exchange_declare_on_wait STATE_EXCHANGE_DECLAREOK_RECEIVED rc =
                .ok)
  ∧ (STATE_CHANNEL_CLOSE_RECEIVED ∈ exchange_bind_awaited
      ∧ STATE_EXCHANGE_BINDOK_RECEIVED ∈ exchange_bind_awaited
      ∧ ∀ rc, exchange_bind_on_wait STATE_CHANNEL_CLOSE_RECEIVED rc =
                .raiseReply rc
            ∧ exchange_bind_on_wait STATE_EXCHANGE_BINDOK_RECEIVED rc = .ok)
  ∧ (STATE_CHANNEL_CLOSE_RECEIVED ∈ queue_declare_awaited
      ∧ STATE_QUEUE_DECLAREOK_RECEIVED ∈ queue_declare_awaited
      ∧ ∀ rc, queue_declare_on_wait STATE_CHANNEL_CLOSE_RECEIVED rc =
                .raiseReply rc
            ∧ queue_declare_on_wait STATE_QUEUE_DECLAREOK_RECEIVED rc = .ok)
  ∧ (STATE_CHANNEL_CLOSE_RECEIVED ∈ queue_bind_awaited
      ∧ STATE_QUEUE_BINDOK_RECEIVED ∈ queue_bind_awaited
      ∧ ∀ rc, queue_bind_on_wait STATE_CHANNEL_CLOSE_RECEIVED rc =
                .raiseReply rc
            ∧ queue_bind_on_wait STATE_QUEUE_BINDOK_RECEIVED rc = .ok)
  ∧ (STATE_CHANNEL_CLOSE_RECEIVED ∈ queue_purge_awaited
      ∧ STATE_QUEUE_PURGEOK_RECEIVED ∈ queue_purge_awaited
      ∧ ∀ rc, queue_purge_on_wait STATE_CHANNEL_CLOSE_RECEIVED rc =
                .raiseReply rc
            ∧ queue_purge_on_wait STATE_QUEUE_PURGEOK_RECEIVED rc = .ok)
  ∧ (exchange_delete_awaited = [STATE_EXCHANGE_DELETEOK_RECEIVED]
      ∧ ∀ r rc, exchange_delete_on_wait r rc = .ok)
  ∧ (exchange_unbind_awaited = [STATE_EXCHANGE_UNBINDOK_RECEIVED]
      ∧ ∀ r rc, exchange_unbind_on_wait r rc = .ok)
  ∧ (queue_delete_awaited = [STATE_QUEUE_DELETEOK_RECEIVED]
      ∧ ∀ r rc, queue_delete_on_wait r rc = .ok)
  ∧ (queue_unbind_awaited = [STATE_QUEUE_UNBINDOK_RECEIVED]
      ∧ ∀ r rc, queue_unbind_on_wait r rc = .ok) := by
  refine ⟨⟨by decide, by decide, fun rc => ⟨rfl, rfl⟩⟩,
          ⟨by decide, by decide, fun rc => ⟨rfl, rfl⟩⟩,
          ⟨by decide, by decide, fun rc => ⟨rfl, rfl⟩⟩,
          ⟨by decide, by decide, fun rc => ⟨rfl, rfl⟩⟩,
          ⟨by decide, by decide, fun rc => ⟨rfl, rfl⟩⟩,
          ⟨by decide, fun r rc => rfl⟩, ⟨by decide, fun r rc => rfl⟩,
          ⟨by decide, fun r rc => rfl⟩, ⟨by decide, fun r rc => rfl⟩⟩

/-- Claim C3: `data_received` is claimed to decode and dispatch every
complete frame in the buffer until the remaining bytes are insufficient.
Evaluated at the failing input — one `data_received` call delivering two
complete frames (under a codec where every byte is a complete frame): only
the first frame is dispatched, and the returned buffer still holds a
decodable frame, because the `while` loop body ends in an unconditional
`break` (protocol.py line 47). -/
theorem data_received_leaves_decodable_frame :
    data_received unmarshalByte [] [7, 8] = ([8], [(0, 7)])
  ∧ unmarshalByte [8] = some (1, 0, 8) := by decide

/-- Claim C7: a message whose ContentHeader announces `body_size == 0` is
claimed to be complete — state `STATE_MESSAGE_ASSEMBLED`, message dispatched
— immediately after the ContentHeader frame.  Evaluated at the failing input:
a `basic_get` is outstanding (future 0 under the "GetOk" key), the broker
sends `Basic.GetOk` then `ContentHeader(body_size=0)`.  The handler leaves
the state at `STATE_CONTENT_HEADER_RECEIVED`, dispatches nothing and leaves
the future pending, even though the assembled-message predicate already
holds; completion is only ever checked in the ContentBody arm (client.py
1394-1413), and no ContentBody frame follows a zero-size body. -/
theorem zero_length_body_never_assembled :
    ((({ Client.init with
          state := STATE_BASIC_GET_SENT,
          transport := true, channel0 := true, channel_open := true,
          consumers := [("GetOk", .fut 0)],
          futures := [(0, .pending)], next_future := 1 } : Client).on_frame
        (.basicGetOk 1)).bind
      (fun c => c.on_frame (.contentHeader 0))).toOption.map
      (fun c => (c.state, c.dispatched, c.futureState 0,
                 c.message.map Msg.complete)) =
    some (STATE_CONTENT_HEADER_RECEIVED, [], some .pending, some true) := by
  decide

/-- Claim C8 counterexample: the delivery-tag counter is not reset by the
reconnect reset.  After two publishes (tags 1 and 2) and `_reset` — the only
state-clearing step of `_reconnect` — the next publish captures tag 3, not
tag 1 as the claim states. -/
theorem delivery_tag_not_reset_on_reconnect :
    ((((Client.init.publish_delivery_tag).1.publish_delivery_tag).1.reset).publish_delivery_tag).2 = 3
  ∧ ((((Client.init.publish_delivery_tag).1.publish_delivery_tag).1.reset).publish_delivery_tag).2 ≠ 1 := by
  decide

/-- Claim C8 (amended): every publish increments the delivery-tag counter by
exactly one and captures the incremented value as the caller's own tag, so
tags are strictly monotonic within a connection; the reconnect reset leaves
the counter unchanged, so the first publish after a reconnect uses the
previous tag plus one, not tag 1. -/
theorem delivery_tag_monotonic_never_reset (c : Client) :
    (c.publish_delivery_tag).2 = c.delivery_tag + 1
  ∧ (c.publish_delivery_tag).1.delivery_tag = c.delivery_tag + 1
  ∧ (c.reset).delivery_tag = c.delivery_tag := by
  exact ⟨rfl, rfl, rfl⟩

/-- Claim C4 counterexample: the manager holds a stored exception (code 7)
while two waiters (ids 1 and 2) are pending on `STATE_OPENED` with no event
set.  The first waiter to poll raises the exception, but the second waiter's
next poll yields `sleeping`, not a raise: the claim that the exception is
re-raised into EVERY pending waiter is false. -/
theorem wait_exception_second_waiter_starves :
    ((wait_on_state_step
        { state := STATE_EXCEPTION, exception := some 7,
          waits := [(STATE_OPENED, 1, false), (STATE_OPENED, 2, false)],
          stickyState := [] } 1 [STATE_OPENED]).1 = .raised 7)
  ∧ ((wait_on_state_step
        ((wait_on_state_step
           { state := STATE_EXCEPTION, exception := some 7,
             waits := [(STATE_OPENED, 1, false), (STATE_OPENED, 2, false)],
             stickyState := [] } 1 [STATE_OPENED]).2) 2 [STATE_OPENED]).1 =
      .sleeping) := by decide

/-- Claim C4 (amended): when the manager stores an exception, the next waiter
to poll exits its loop raising that exception and the stored exception is
cleared from the manager; any other pending waiter that polls afterwards, none
of whose events is set, does not raise — it resumes waiting, because the
`while not self._exception` guard sees no exception any more. -/
theorem wait_exception_taken_by_first_waiter (m : StateManager) (e : Nat)
    (i j : Nat) (argsI argsJ : List Nat)
    (he : m.exception = some e)
    (hj : ∀ s ∈ argsJ, eventIsSet m j s = false) :
    (wait_on_state_step m i argsI).1 = .raised e
  ∧ ((wait_on_state_step m i argsI).2).exception = none
  ∧ (wait_on_state_step ((wait_on_state_step m i argsI).2) j argsJ).1 =
      .sleeping := by
  unfold wait_on_state_step
  rw [he]
  refine ⟨rfl, rfl, ?_⟩
  have hfind : argsJ.find?
      (fun s => eventIsSet { m with exception := none } j s) = none := by
    apply List.find?_eq_none.mpr
    intro s hs
    have : eventIsSet { m with exception := none } j s =
        eventIsSet m j s := rfl
    rw [this, hj s hs]
    simp
  simp [hfind]

/-- Claim C4 witness: the amended theorem applied to a concrete manager with
stored exception 3 and waiters 1 and 2 pending on `STATE_OPENED`. -/
theorem wait_exception_taken_by_first_waiter_witness :
    (wait_on_state_step
       { state := STATE_EXCEPTION, exception := some 3,
         waits := [(STATE_OPENED, 1, false), (STATE_OPENED, 2, false)],
         stickyState := [] } 1 [STATE_OPENED]).1 = .raised 3
  ∧ ((wait_on_state_step
       { state := STATE_EXCEPTION, exception := some 3,
         waits := [(STATE_OPENED, 1, false), (STATE_OPENED, 2, false)],
         stickyState := [] } 1 [STATE_OPENED]).2).exception = none
  ∧ (wait_on_state_step
       ((wait_on_state_step
          { state := STATE_EXCEPTION, exception := some 3,
            waits := [(STATE_OPENED, 1, false), (STATE_OPENED, 2, false)],
            stickyState := [] } 1 [STATE_OPENED]).2) 2 [STATE_OPENED]).1 =
      .sleeping :=
  wait_exception_taken_by_first_waiter _ 3 1 2 [STATE_OPENED] [STATE_OPENED]
    rfl (by decide)

/-- Claim C5: for every `setState(next, exc)` call — if `exc` is provided or
`next` is ExceptionRaised, the error is stored and the state becomes
ExceptionRaised unconditionally; otherwise if `next` equals the current state
the call is a no-op on the state and stored exception; otherwise if `next` is
not in `transitions[current]` the call fails with an InvalidTransition error;
otherwise the state becomes `next` and every waiter registered on `next` is
woken. -/
theorem set_state_spec (tbl : Nat → List Nat) (m : StateManager) (value : Nat)
    (exc : Option Nat) (sticky : Bool) :
    ((value = STATE_EXCEPTION ∨ exc.isSome) →
       ∃ m', set_state tbl m value exc sticky = .ok m'
         ∧ m'.state = STATE_EXCEPTION ∧ m'.exception = exc)
  ∧ (¬(value = STATE_EXCEPTION ∨ exc.isSome) → value = m.state →
       ∃ m', set_state tbl m value exc sticky = .ok m'
         ∧ m'.state = m.state ∧ m'.exception = m.exception)
  ∧ (¬(value = STATE_EXCEPTION ∨ exc.isSome) → value ≠ m.state →
       value ∉ tbl m.state →
       set_state tbl m value exc sticky = .error "Invalid state transition")
  ∧ (¬(value = STATE_EXCEPTION ∨ exc.isSome) → value ≠ m.state →
       value ∈ tbl m.state →
       ∃ m', set_state tbl m value exc sticky = .ok m'
         ∧ m'.state = value ∧ m'.exception = m.exception
         ∧ ∀ w ∈ m.waits, w.1 = value → (value, w.2.1, true) ∈ m'.waits) := by
  refine ⟨?_, ?_, ?_, ?_⟩
  · intro h
    exact ⟨wakeWaits { m with exception := exc, state := STATE_EXCEPTION },
           by rw [set_state, if_pos h], rfl, rfl⟩
  · intro h hv
    exact ⟨wakeWaits m, by rw [set_state, if_neg h, if_pos hv], rfl, rfl⟩
  · intro h hv ht
    rw [set_state, if_neg h, if_neg hv, if_pos ht]
  · intro h hv ht
    refine ⟨wakeWaits
        { m with state := value,
                 stickyState :=
                   if sticky then value :: m.stickyState else m.stickyState },
      by rw [set_state, if_neg h, if_neg hv, if_neg (by simpa using ht)],
      rfl, rfl, ?_⟩
    intro w hw hw1
    show (value, w.2.1, true) ∈ (wakeWaits _).waits
    unfold wakeWaits
    simp only [List.mem_map]
    exact ⟨w, hw, by simp [hw1]⟩

/-- Claim C5 witness: the four cases of `set_state_spec` instantiated with
the Client transition table — an exception set from Disconnected, a no-op
re-entry of Disconnected, an invalid Disconnected-to-Opened transition, and a
valid Disconnected-to-Connecting transition that wakes the waiter registered
on Connecting. -/
theorem set_state_spec_witness :
    (∃ m', set_state clientTransitions
        { state := STATE_DISCONNECTED, exception := none,
          waits := [(STATE_CONNECTING, 5, false)], stickyState := [] }
        STATE_EXCEPTION (some 9) false = .ok m'
      ∧ m'.state = STATE_EXCEPTION ∧ m'.exception = some 9)
  ∧ (∃ m', set_state clientTransitions
        { state := STATE_DISCONNECTED, exception := none,
          waits := [(STATE_CONNECTING, 5, false)], stickyState := [] }
        STATE_DISCONNECTED none false = .ok m'
      ∧ m'.state = STATE_DISCONNECTED ∧ m'.exception = none)
  ∧ (set_state clientTransitions
        { state := STATE_DISCONNECTED, exception := none,
          waits := [(STATE_CONNECTING, 5, false)], stickyState := [] }
        STATE_OPENED none false = .error "Invalid state transition")
  ∧ (∃ m', set_state clientTransitions
        { state := STATE_DISCONNECTED, exception := none,
          waits := [(STATE_CONNECTING, 5, false)], stickyState := [] }
        STATE_CONNECTING none false = .ok m'
      ∧ m'.state = STATE_CONNECTING ∧ m'.exception = none
      ∧ ∀ w ∈ [(STATE_CONNECTING, 5, false)], w.1 = STATE_CONNECTING →
          (STATE_CONNECTING, w.2.1, true) ∈ m'.waits) := by
  refine ⟨?_, ?_, ?_, ?_⟩
  · exact (set_state_spec clientTransitions _ STATE_EXCEPTION (some 9)
      false).1 (Or.inr rfl)
  · exact (set_state_spec clientTransitions _ STATE_DISCONNECTED none
      false).2.1 (by decide) rfl
  · exact (set_state_spec clientTransitions _ STATE_OPENED none
      false).2.2.1 (by decide) (by decide) (by decide)
  · exact (set_state_spec clientTransitions _ STATE_CONNECTING none
      false).2.2.2 (by decide) (by decide) (by decide)

/-! Helper lemmas shared by the client theorems. -/

/-- `set_state` with no exception argument succeeds when the target equals
the current state (no-op) or is a legal successor, and then lands in the
target state. -/
theorem set_state_none_ok (tbl : Nat → List Nat) (m : StateManager) (v : Nat)
    (hv : v ≠ STATE_EXCEPTION) (h : v = m.state ∨ v ∈ tbl m.state) :
    ∃ m', set_state tbl m v none false = .ok m'
      ∧ m'.state = v ∧ m'.exception = m.exception := by
  have hc : ¬(v = STATE_EXCEPTION ∨ (none : Option Nat).isSome) := by
    simp [hv]
  by_cases hveq : v = m.state
  · refine ⟨wakeWaits m, ?_, ?_, rfl⟩
    · rw [set_state, if_neg hc, if_pos hveq]
    · simp [wakeWaits, hveq]
  · rcases h with h | h
    · exact absurd h hveq
    · refine ⟨wakeWaits { m with state := v }, ?_, rfl, rfl⟩
      rw [set_state, if_neg hc, if_neg hveq, if_neg (by simpa using h)]
      rfl

/-- `Client.set_state` does not touch any client attribute outside the
inherited state-manager fields. -/
theorem client_set_state_fields (c : Client) (v : Nat) (c' : Client)
    (h : c.set_state v = .ok c') :
    c'.consumers = c.consumers ∧ c'.futures = c.futures
  ∧ c'.next_future = c.next_future ∧ c'.delivery_tag = c.delivery_tag
  ∧ c'.message = c.message ∧ c'.dispatched = c.dispatched := by
  unfold Client.set_state at h
  cases hm : Aiorabbit.set_state clientTransitions c.toStateManager v none
      false with
  | error e => rw [hm] at h; exact absurd h (by simp [Except.map])
  | ok m' =>
    rw [hm] at h
    simp only [Except.map, Except.ok.injEq] at h
    rw [← h]
    exact ⟨rfl, rfl, rfl, rfl, rfl, rfl⟩

/-- `Client.set_state` succeeds when the target equals the current state or
is a legal successor, preserving the client attributes. -/
theorem client_set_state_success (c : Client) (v : Nat)
    (hv : v ≠ STATE_EXCEPTION) (h : v = c.state ∨ v ∈ clientTransitions c.state) :
    ∃ c', c.set_state v = .ok c' ∧ c'.state = v
      ∧ c'.consumers = c.consumers ∧ c'.futures = c.futures
      ∧ c'.next_future = c.next_future := by
  obtain ⟨m', hm, hs, _⟩ :=
    set_state_none_ok clientTransitions c.toStateManager v hv h
  refine ⟨{ c with toStateManager := m' }, ?_, hs, rfl, rfl, rfl⟩
  unfold Client.set_state
  rw [hm]
  rfl

/-- Updating an existing key in an association list makes the first match of
that key the new value. -/
theorem find?_map_set_key (k : String) (v : ConsumerTarget)
    (l : List (String × ConsumerTarget)) (h : l.any (fun p => p.1 = k)) :
    ((l.map (fun p => if p.1 = k then (k, v) else p)).find?
       (fun p => p.1 = k)) = some (k, v) := by
  induction l with
  | nil => simp at h
  | cons p t ih =>
    by_cases hp : p.1 = k
    · rw [List.map_cons, if_pos hp, List.find?_cons_of_pos _ (by simp)]
    · have ht : t.any (fun q => q.1 = k) := by
        simpa [List.any_cons, hp] using h
      rw [List.map_cons, if_neg hp,
          List.find?_cons_of_neg _ (by simpa using hp)]
      exact ih ht

/-- Appending a fresh key to an association list containing no entry for it
makes the appended pair the first match of that key. -/
theorem find?_append_key (k : String) (v : ConsumerTarget)
    (l : List (String × ConsumerTarget))
    (h : l.any (fun p => p.1 = k) = false) :
    ((l ++ [(k, v)]).find? (fun p => p.1 = k)) = some (k, v) := by
  induction l with
  | nil => exact List.find?_cons_of_pos _ (by simp)
  | cons p t ih =>
    simp only [List.any_cons, Bool.or_eq_false_iff] at h
    rw [List.cons_append, List.find?_cons_of_neg _ (by simpa using h.1)]
    exact ih h.2

/-- Looking a key up after `consumersSet` stored a value for it yields that
value. -/
theorem consumersGet_consumersSet (c : Client) (k : String)
    (v : ConsumerTarget) : (c.consumersSet k v).consumersGet k = some v := by
  unfold Client.consumersSet Client.consumersGet
  cases hb : c.consumers.any (fun p => p.1 = k) with
  | true =>
    rw [if_pos rfl]
    rw [find?_map_set_key k v c.consumers hb]
    rfl
  | false =>
    rw [if_neg (by simp)]
    rw [find?_append_key k v c.consumers hb]
    rfl

/-- Finding a future id in a store whose prefix holds only smaller ids lands
on the appended entry. -/
theorem futures_find_appended (l : List (Nat × FutState)) (n : Nat)
    (h : ∀ p ∈ l, p.1 < n) (rest : List (Nat × FutState)) :
    (l ++ (n, FutState.pending) :: rest).find? (fun p => p.1 = n) =
      some (n, FutState.pending) := by
  induction l with
  | nil => simp [List.find?_cons_of_pos]
  | cons p t ih =>
    have hp : ¬(p.1 = n) := Nat.ne_of_lt (h p (by simp))
    have ht : ∀ q ∈ t, q.1 < n := fun q hq => h q (by simp [hq])
    simpa [hp, List.find?_cons_of_neg] using ih ht

/-- `consumersSet` touches only the consumer map. -/
theorem consumersSet_fields (c : Client) (k : String) (v : ConsumerTarget) :
    (c.consumersSet k v).state = c.state
  ∧ (c.consumersSet k v).futures = c.futures
  ∧ (c.consumersSet k v).next_future = c.next_future := by
  unfold Client.consumersSet
  split <;> exact ⟨rfl, rfl, rfl⟩

/-- `consumersGet` depends only on the consumer map. -/
theorem consumersGet_congr (c c' : Client) (h : c.consumers = c'.consumers)
    (k : String) : c.consumersGet k = c'.consumersGet k := by
  unfold Client.consumersGet
  rw [h]

/-- `futureState` depends only on the future store. -/
theorem futureState_eq (c : Client) (l : List (Nat × FutState))
    (h : c.futures = l) (fid : Nat) :
    c.futureState fid = (l.find? (fun p => p.1 = fid)).map (fun p => p.2) := by
  unfold Client.futureState
  rw [h]

/-- Claim C9 counterexample: a `basic_get` issued while a previous `basic_get`
is still unresolved does not preserve the claimed at-most-one-outstanding
invariant.  From an idle channel, two `basic_get` calls in a row leave TWO
pending basic.get futures in the store; the reserved "GetOk" key holds only
the second one, orphaning the first caller. -/
theorem basic_get_second_call_two_outstanding :
    ((({ Client.init with
          state := STATE_CHANNEL_OPENOK_RECEIVED } : Client).basic_get).bind
       (fun p => p.1.basic_get)).toOption.map
      (fun p => (p.2, p.1.consumersGet "GetOk",
                 (p.1.futures.filter
                    (fun q => q.2 = FutState.pending)).length)) =
    some (1, some (.fut 1), 2) := by decide

/-- Claim C9 (amended): the reserved "GetOk" key of the consumer map holds
the future of the MOST RECENT `basic_get`.  A `basic_get` issued while a
previous one is unresolved creates a second, distinct future and overwrites
the stored one with it — both futures are then pending, so two basic.get
operations are outstanding at once: the code does not enforce the
at-most-one-outstanding invariant. -/
theorem basic_get_overwrites (c : Client)
    (hstate : STATE_BASIC_GET_SENT = c.state ∨
              STATE_BASIC_GET_SENT ∈ clientTransitions c.state)
    (hfresh : ∀ p ∈ c.futures, p.1 < c.next_future) :
    ∃ c1 c2 : Client,
      c.basic_get = .ok (c1, c.next_future)
    ∧ c1.basic_get = .ok (c2, c.next_future + 1)
    ∧ c.next_future ≠ c.next_future + 1
    ∧ c2.consumersGet "GetOk" =
        some (.fut (c.next_future + 1))
    ∧ c2.futureState c.next_future = some .pending
    ∧ c2.futureState (c.next_future + 1) = some .pending := by
  have hne : c.next_future ≠ c.next_future + 1 :=
    Nat.ne_of_lt (Nat.lt_succ_self _)
  -- the client after the first call's future creation and map assignment
  let cb : Client :=
    ({ c with
        next_future := c.next_future + 1,
        futures := c.futures ++ [(c.next_future, FutState.pending)] }
      : Client).consumersSet "GetOk" (.fut c.next_future)
  have hbstate : cb.state = c.state :=
    (consumersSet_fields _ "GetOk" (.fut c.next_future)).1
  obtain ⟨c1, h1, h1s, h1cons, h1fut, h1next⟩ :=
    client_set_state_success cb
      STATE_BASIC_GET_SENT (by decide) (by rw [hbstate]; exact hstate)
  have hget1 : c.basic_get = .ok (c1, c.next_future) := by
    show Except.bind (cb.set_state STATE_BASIC_GET_SENT)
      (fun cc => pure (cc, c.next_future)) = .ok (c1, c.next_future)
    rw [h1]
    rfl
  -- bookkeeping for the first call's result
  have hcbfut : cb.futures = c.futures ++ [(c.next_future, FutState.pending)] :=
    (consumersSet_fields _ "GetOk" (.fut c.next_future)).2.1
  have hcbnext : cb.next_future = c.next_future + 1 :=
    (consumersSet_fields _ "GetOk" (.fut c.next_future)).2.2
  have h1fut' : c1.futures = c.futures ++ [(c.next_future, FutState.pending)] :=
    h1fut.trans hcbfut
  have h1next' : c1.next_future = c.next_future + 1 := h1next.trans hcbnext
  -- the client after the second call's future creation and map assignment
  let cb2 : Client :=
    ({ c1 with
        next_future := c1.next_future + 1,
        futures := c1.futures ++ [(c1.next_future, FutState.pending)] }
      : Client).consumersSet "GetOk" (.fut c1.next_future)
  have hb2state : cb2.state = c1.state :=
    (consumersSet_fields _ "GetOk" (.fut c1.next_future)).1
  obtain ⟨c2, h2, h2s, h2cons, h2fut, h2next⟩ :=
    client_set_state_success cb2
      STATE_BASIC_GET_SENT (by decide)
      (Or.inl (by rw [hb2state, h1s]))
  have hget2 : c1.basic_get = .ok (c2, c1.next_future) := by
    show Except.bind (cb2.set_state STATE_BASIC_GET_SENT)
      (fun cc => pure (cc, c1.next_future)) = .ok (c2, c1.next_future)
    rw [h2]
    rfl
  have hcb2fut : cb2.futures =
      c1.futures ++ [(c1.next_future, FutState.pending)] :=
    (consumersSet_fields _ "GetOk" (.fut c1.next_future)).2.1
  have h2fut' : c2.futures =
      (c.futures ++ [(c.next_future, FutState.pending)]) ++
        [(c.next_future + 1, FutState.pending)] := by
    rw [h2fut, hcb2fut, h1fut', h1next']
  refine ⟨c1, c2, hget1, by rw [hget2, h1next'], hne, ?_, ?_, ?_⟩
  · -- the map holds the second future
    have hset := consumersGet_consumersSet
      ({ c1 with
          next_future := c1.next_future + 1,
          futures := c1.futures ++ [(c1.next_future, FutState.pending)] }
        : Client) "GetOk" (.fut c1.next_future)
    rw [consumersGet_congr c2 cb2 h2cons "GetOk"]
    rw [show cb2.consumersGet "GetOk" = some (.fut c1.next_future) from hset,
        h1next']
  · -- the first future is still pending
    rw [futureState_eq c2 _ h2fut' c.next_future]
    rw [List.append_assoc, List.singleton_append,
        futures_find_appended c.futures c.next_future hfresh
          [(c.next_future + 1, FutState.pending)]]
    rfl
  · -- the second future is pending as well
    rw [futureState_eq c2 _ h2fut' (c.next_future + 1)]
    have hfresh' : ∀ p ∈ c.futures ++ [(c.next_future, FutState.pending)],
        p.1 < c.next_future + 1 := by
      intro p hp
      rcases List.mem_append.mp hp with hp | hp
      · exact Nat.lt_succ_of_lt (hfresh p hp)
      · rcases List.mem_singleton.mp hp with rfl
        exact Nat.lt_succ_self _
    rw [futures_find_appended _ (c.next_future + 1) hfresh' []]
    rfl

/-- Claim C9 witness: `basic_get_overwrites` applied to a fresh client on an
open channel. -/
theorem basic_get_overwrites_witness :
    ∃ c1 c2 : Client,
      ({ Client.init with
          state := STATE_CHANNEL_OPENOK_RECEIVED } : Client).basic_get =
        .ok (c1, 0)
    ∧ c1.basic_get = .ok (c2, 0 + 1)
    ∧ (0 : Nat) ≠ 0 + 1
    ∧ c2.consumersGet "GetOk" = some (.fut (0 + 1))
    ∧ c2.futureState 0 = some .pending
    ∧ c2.futureState (0 + 1) = some .pending :=
  basic_get_overwrites
    ({ Client.init with state := STATE_CHANNEL_OPENOK_RECEIVED } : Client)
    (by decide) (by simp [Client.init])

/-! Helper development for the body-chunking claim: an equivalent recursive
formulation of the chunk sequence, used to prove that the chunks concatenate
back to the body. -/

/-- Recursive reformulation of the chunk sequence: first `f` bytes, then the
chunks of the rest. -/
def chunk_list (f : Nat) : List Nat → List (List Nat)
  | [] => []
  | a :: rest => (a :: rest.take (f - 1)) :: chunk_list f (rest.drop (f - 1))
termination_by l => l.length
decreasing_by simp [List.length_drop]; omega

/-- The chunks of `chunk_list` concatenate back to the input. -/
theorem chunk_list_flatten (f : Nat) (l : List Nat) :
    (chunk_list f l).flatten = l := by
  generalize hl : l.length = n
  induction n using Nat.strong_induction_on generalizing l with
  | _ n ih =>
    cases l with
    | nil => simp [chunk_list]
    | cons a rest =>
      have hn : rest.length + 1 = n := by simpa using hl
      rw [chunk_list]
      simp only [List.flatten_cons]
      have hlen : (rest.drop (f - 1)).length < n := by
        simp only [List.length_drop]
        omega
      rw [ih _ hlen _ rfl]
      simp [List.take_append_drop]

/-- The chunk at offset `i + 1` of a body equals the chunk at offset `i` of
the body with its first `f` bytes dropped. -/
theorem publish_body_chunk_succ (f : Nat) (hf : 0 < f) (l : List Nat)
    (i : Nat) :
    publish_body_chunk f l (i + 1) = publish_body_chunk f (l.drop f) i := by
  unfold publish_body_chunk
  simp only [List.length_drop, List.drop_drop]
  have hm : f * (i + 1) = f * i + f := Nat.mul_succ f i
  rw [hm]
  have hd : f * i + f = f + f * i := by omega
  rw [hd]
  generalize f * i = a
  congr 1
  split_ifs <;> omega

/-- The chunk at offset 0 is the first `f` bytes of the body. -/
theorem publish_body_chunk_zero (f : Nat) (l : List Nat) :
    publish_body_chunk f l 0 = l.take f := by
  unfold publish_body_chunk
  simp only [Nat.mul_zero, List.drop_zero, Nat.zero_add, Nat.sub_zero]
  rw [List.take_eq_take]
  simp only [Nat.min_def]
  split_ifs <;> omega

/-- Unfolded form of `publish_body_frames`. -/
theorem publish_body_frames_def (f : Nat) (l : List Nat) :
    publish_body_frames f l =
      (List.range ((l.length + f - 1) / f)).map (publish_body_chunk f l) :=
  rfl

/-- The offset loop of `Client.publish` produces exactly the recursive chunk
sequence. -/
theorem publish_body_frames_eq_chunk_list (f : Nat) (hf : 0 < f)
    (l : List Nat) : publish_body_frames f l = chunk_list f l := by
  generalize hl : l.length = n
  induction n using Nat.strong_induction_on generalizing l with
  | _ n ih =>
    cases l with
    | nil =>
      rw [publish_body_frames_def, chunk_list]
      have h0 : ((List.nil : List Nat).length + f - 1) / f = 0 := by
        simp only [List.length_nil, Nat.zero_add]
        exact Nat.div_eq_of_lt (by omega)
      rw [h0]
      rfl
    | cons a rest =>
      have hn : rest.length + 1 = n := by simpa using hl
      have hfr : ((a :: rest).length + f - 1) / f = rest.length / f + 1 := by
        simp only [List.length_cons]
        have : rest.length + 1 + f - 1 = rest.length + f := by omega
        rw [this, Nat.add_div_right _ hf]
      rw [publish_body_frames_def, hfr, List.range_succ_eq_map]
      rw [List.map_cons, List.map_map]
      have hshift : (publish_body_chunk f (a :: rest) ∘ Nat.succ) =
          publish_body_chunk f ((a :: rest).drop f) := by
        funext i
        exact publish_body_chunk_succ f hf (a :: rest) i
      rw [hshift]
      have hdropped : ((a :: rest).drop f) = rest.drop (f - 1) := by
        have h1 : f = (f - 1) + 1 := by omega
        conv_lhs => rw [h1, List.drop_succ_cons]
      have hk : rest.length / f =
          (((a :: rest).drop f).length + f - 1) / f := by
        rw [List.length_drop, List.length_cons]
        by_cases hc : f ≤ rest.length + 1
        · have : rest.length + 1 - f + f - 1 = rest.length + 1 - 1 := by omega
          rw [this]
          simp
        · have h1 : rest.length + 1 - f = 0 := by omega
          rw [h1]
          have h2 : rest.length / f = 0 := Nat.div_eq_of_lt (by omega)
          have h3 : (0 + f - 1) / f = 0 := Nat.div_eq_of_lt (by omega)
          rw [h2, h3]
      rw [hk, ← publish_body_frames_def]
      have hlen : ((a :: rest).drop f).length < n := by
        rw [List.length_drop, List.length_cons]
        omega
      rw [ih _ hlen _ rfl]
      rw [publish_body_chunk_zero]
      have htake : (a :: rest).take f = a :: rest.take (f - 1) := by
        have h1 : f = (f - 1) + 1 := by omega
        conv_lhs => rw [h1, List.take_succ_cons]
      rw [htake, hdropped, chunk_list]

/-- Claim C6: for a body of `n` bytes and negotiated maximum frame size `f`,
`publish` writes exactly `(n + f - 1) / f` (that is, the ceiling of `n / f`)
ContentBody frames; the `i`-th carries the byte slice from `i * f` up to
`min ((i + 1) * f) n`; every chunk is at most `f` bytes; the concatenation of
the chunks equals the body byte-exactly; and a zero-length body emits no body
frames. -/
theorem publish_body_frames_spec (f : Nat) (body : List Nat) (hf : 0 < f) :
    (publish_body_frames f body).length = (body.length + f - 1) / f
  ∧ (∀ i, i < (publish_body_frames f body).length →
       (publish_body_frames f body)[i]? =
         some ((body.drop (i * f)).take
           (min ((i + 1) * f) body.length - i * f)))
  ∧ (∀ ch ∈ publish_body_frames f body, ch.length ≤ f)
  ∧ (publish_body_frames f body).flatten = body
  ∧ (body = [] → publish_body_frames f body = []) := by
  refine ⟨?_, ?_, ?_, ?_, ?_⟩
  · rw [publish_body_frames_def]
    simp
  · intro i hi
    rw [publish_body_frames_def] at hi ⊢
    simp only [List.length_map, List.length_range] at hi
    rw [List.getElem?_map, List.getElem?_range hi]
    rw [show (some i).map (publish_body_chunk f body) =
          some (publish_body_chunk f body i) from rfl]
    congr 1
    unfold publish_body_chunk
    simp only []
    have h1 : i * f = f * i := Nat.mul_comm i f
    have h2 : (i + 1) * f = f * i + f := by ring
    rw [h1, h2]
    rw [List.take_eq_take]
    simp only [List.length_take, List.length_drop, Nat.min_def]
    generalize f * i = a
    split_ifs <;> omega
  · intro ch hch
    rw [publish_body_frames_def] at hch
    obtain ⟨i, hi, rfl⟩ := List.mem_map.mp hch
    unfold publish_body_chunk
    simp only []
    refine le_trans (List.length_take_le _ _) ?_
    generalize f * i = a
    split_ifs <;> omega
  · rw [publish_body_frames_eq_chunk_list f hf]
    exact chunk_list_flatten f body
  · intro h
    subst h
    rw [publish_body_frames_eq_chunk_list f hf, chunk_list]

/-- Claim C6 witness: the chunking theorem applied at frame size 2 and body
`[1, 2, 3]`. -/
theorem publish_body_frames_spec_witness :
    (publish_body_frames 2 [1, 2, 3]).length =
      (([1, 2, 3] : List Nat).length + 2 - 1) / 2
  ∧ (publish_body_frames 2 [1, 2, 3]).flatten = [1, 2, 3] :=
  ⟨(publish_body_frames_spec 2 [1, 2, 3] (by decide)).1,
   (publish_body_frames_spec 2 [1, 2, 3] (by decide)).2.2.2.1⟩

/-- Claim C10: the reconnect reset clears the publisher-confirms flag, the
channel number, the channel-open, connected and blocked events, the
transport, the protocol and the stored exception, but leaves the
transactional-mode flag unchanged; hence after a reconnect performed while
transactional mode was enabled, `tx_commit` and `tx_rollback` do not raise
NoTransaction even though no `tx_select` was issued on the new channel. -/
theorem reset_preserves_transactional (c : Client) :
    ((c.reset).blocked = false ∧ (c.reset).channel = 0
      ∧ (c.reset).channel_open = false ∧ (c.reset).connected = false
      ∧ (c.reset).transport = false ∧ (c.reset).protocol = false
      ∧ (c.reset).exception = none ∧ (c.reset).publisher_confirms = false
      ∧ (c.reset).channel0 = false ∧ (c.reset).state = STATE_CLOSED
      ∧ (c.reset).transactional = c.transactional)
  ∧ (c.transactional = true →
      (c.reset).tx_commit ≠ .noTransaction
      ∧ (c.reset).tx_rollback ≠ .noTransaction) := by
  refine ⟨⟨rfl, rfl, rfl, rfl, rfl, rfl, rfl, rfl, rfl, rfl, rfl⟩, ?_⟩
  intro ht
  have ht' : (c.reset).transactional = true := ht
  constructor
  · unfold Client.tx_commit
    rw [ht']
    cases h : (c.reset).set_state STATE_TX_COMMIT_SENT <;> simp
  · unfold Client.tx_rollback
    rw [ht']
    cases h : (c.reset).set_state STATE_TX_ROLLBACK_SENT <;> simp

/-- Claim C10 witness: `reset_preserves_transactional` applied to a client
in transactional mode. -/
theorem reset_preserves_transactional_witness :
    (({ Client.init with transactional := true } : Client).reset).tx_commit ≠
      .noTransaction
  ∧ (({ Client.init with transactional := true } : Client).reset).tx_rollback ≠
      .noTransaction :=
  (reset_preserves_transactional
    ({ Client.init with transactional := true } : Client)).2 rfl

end Aiorabbit
